import Mathlib

/-!
Shallow embedding of the FESTIM boundary-condition subsystem:
`FESTIM/boundary_conditions.py` (Dirichlet/flux assembler, chemical-potential
"theta" transform, implantation-recombination and Sievert solubility boundary
values) and `festim/boundary_conditions/fluxes/mass_flux.py` (mass-transfer
interface law).  Symbolic sympy expressions are carried as strings ("ccode");
pointwise numeric evaluation of the nonlinear boundary values is modelled over
the reals.
-/

namespace FESTIM

/-- Modelled from the spec: the Boltzmann constant `FESTIM.k_B` (eV/K) is
defined in a module outside the sources; only its positivity matters here. -/
noncomputable def k_B : ℝ := 8.617e-5

theorem k_B_pos : 0 < k_B := by norm_num [k_B]

/-- A material declaration: a dict with an id and optional Arrhenius
parameters; `"S_0" in mat.keys()` is modelled as `mat.S_0.isSome`. -/
structure Material where
  id : Nat
  S_0 : Option ℝ := none
  E_S : Option ℝ := none
  D_0 : Option ℝ := none
  E_D : Option ℝ := none

/-- The `surfaces` entry of a condition dict: either a bare id or a list. -/
inductive Surfaces where
  | single : Nat → Surfaces
  | list : List Nat → Surfaces
deriving DecidableEq

/-- `if type(surfaces) is not list: surfaces = [surfaces]` -/
def surfacesList : Surfaces → List Nat
  | .single s => [s]
  | .list l => l

/-- A boundary-condition dict; absent keys are `none`. -/
structure BCdict where
  type : Option String := none
  value : Option String := none
  pressure : Option String := none
  S_0 : Option ℝ := none
  E_S : Option ℝ := none
  implanted_flux : Option String := none
  implantation_depth : Option String := none
  D_0 : Option ℝ := none
  E_D : Option ℝ := none
  K_0 : Option ℝ := none
  E_K : Option ℝ := none
  component : Option Nat := none
  surfaces : Surfaces := .list []

/-- Errors raised by the assembler (Python `KeyError` / `NameError` /
`MaterialNotFound` from the resolver). -/
inductive BCError where
  | keyError : String → BCError
  | nameError : String → BCError
  | materialNotFound : Nat → BCError
deriving DecidableEq

/-- The value objects put in the expression registry and imposed as
constraints: compiled `fenics.Expression`s (ccode string and degree), the
solubility and implantation-recombination `UserExpression`s, and the
`BoundaryConditionTheta` wrapper. -/
inductive Value where
  | expr : String → Nat → Value
  | solubility : ℝ → ℝ → Value → Value
  | recomb : Value → Value → Option ℝ → Option ℝ → ℝ → ℝ → Value
  | theta : Value → List Material → Value

/-- One emitted `fenics.DirichletBC`: the function (sub)space it constrains
(`none` = the whole space `V`, `some c` = `V.sub(c)`), the value expression
and the surface id. -/
structure Constraint where
  funspace : Option Nat
  value : Value
  surface : Nat

/-- Modelled from the spec: `FESTIM.helpers.bc_types` is not under the
sources; §4.4 gives the essential (dc-class) kinds. -/
def bc_types_dc : List String := ["dc", "solubility", "dc_imp"]

/-- Modelled from the spec: the Neumann kinds of `FESTIM.helpers.bc_types`. -/
def bc_types_neumann : List String := ["flux"]

/-- Modelled from the spec: the Robin kinds of `FESTIM.helpers.bc_types`. -/
def bc_types_robin : List String := ["recomb", "convective_flux", "mass_flux"]

/-- Modelled from the spec: `FESTIM.helpers.find_material_from_id`, the
Material Resolver of §4.2 — returns the material matching the subdomain id,
failing if none matches. -/
def find_material_from_id (materials : List Material) (id : Nat) :
    Except BCError Material :=
  match materials.find? (fun m => m.id = id) with
  | some m => .ok m
  | none => .error (.materialNotFound id)

/-- The conservation-of-chemical-potential detection loop of
`apply_boundary_conditions`: the flag is set when any declared material has
an `"S_0"` key. -/
def conservation_chemic_pot (materials : List Material) : Bool :=
  materials.any fun mat => mat.S_0.isSome

/-- The corresponding detection in `apply_fluxes`: guarded by `S is not None`
and set when any material has an `"S_0"` or an `"E_S"` key. -/
def conservation_chemic_pot_fluxes (S_present : Bool)
    (materials : List Material) : Bool :=
  S_present && materials.any fun mat => mat.S_0.isSome || mat.E_S.isSome

/-- The value-building `if/elif` chain at the top of the
`apply_boundary_conditions` loop body: for the `dc`, `solubility` and
`dc_imp` kinds it compiles the boundary value (raising `KeyError` on a
missing required key) and collects the sub-expressions registered along the
way; for any other kind it builds nothing. -/
def buildValueBC (BC : BCdict) (type_BC : String) :
    Except BCError (Option Value × List Value) :=
  if type_BC = "dc" then
    match BC.value with
    | none => .error (.keyError "value")
    | some v => .ok (some (.expr v 4), [])
  else if type_BC = "solubility" then
    match BC.pressure, BC.S_0, BC.E_S with
    | some p, some S_0, some E_S =>
      .ok (some (.solubility S_0 E_S (.expr p 2)), [.expr p 2])
    | none, _, _ => .error (.keyError "pressure")
    | some _, none, _ => .error (.keyError "S_0")
    | some _, some _, none => .error (.keyError "E_S")
  else if type_BC = "dc_imp" then
    match BC.implanted_flux, BC.implantation_depth, BC.D_0, BC.E_D with
    | some fl, some dp, some D_0, some E_D =>
      let phi := Value.expr fl 1
      let R_p := Value.expr dp 1
      let KE : Option ℝ × Option ℝ :=
        if BC.K_0.isSome && BC.E_K.isSome then (BC.K_0, BC.E_K)
        else (none, none)
      .ok (some (.recomb phi R_p KE.1 KE.2 D_0 E_D), [phi, R_p])
    | none, _, _, _ => .error (.keyError "implanted_flux")
    | some _, none, _, _ => .error (.keyError "implantation_depth")
    | some _, some _, none, _ => .error (.keyError "D_0")
    | some _, some _, some _, none => .error (.keyError "E_D")
  else .ok (none, [])

/-- The body of the `apply_boundary_conditions` loop for a single condition
dict: builds the value expression for the dc-class kinds, rejects unknown
kinds, applies the theta transform when chemical-potential conservation is
active and the component is the solute (0), and emits one constraint per
surface.  Returns the emitted constraints and the registered expressions. -/
def processOne (materials : List Material) (num_sub_spaces : Nat)
    (BC : BCdict) : Except BCError (List Constraint × List Value) :=
  match BC.type with
  | none => .error (.keyError "Missing boundary condition type key")
  | some type_BC =>
    match buildValueBC BC type_BC with
    | .error e => .error e
    | .ok (valueBC?, exprs1) =>
      if !bc_types_neumann.contains type_BC
          && !bc_types_robin.contains type_BC
          && !bc_types_dc.contains type_BC then
        .error (.nameError ("Unknown boundary condition type : " ++ type_BC))
      else if bc_types_dc.contains type_BC then
        match valueBC? with
        | none => .error (.nameError "name value_BC is not defined")
        | some vb =>
          let component := BC.component.getD 0
          let (value_BC, exprs2) :=
            if component = 0 ∧ conservation_chemic_pot materials = true then
              (Value.theta vb materials, [vb, Value.theta vb materials])
            else (vb, [vb])
          let funspace : Option Nat :=
            if num_sub_spaces = 0 then none else some component
          .ok ((surfacesList BC.surfaces).map
                  (fun surface => ⟨funspace, value_BC, surface⟩),
                exprs1 ++ exprs2)
      else
        .ok ([], exprs1)

/-- The `apply_boundary_conditions` loop over the declared condition list,
accumulating constraints and expressions in declaration order and
propagating the first error. -/
def applyBCs (materials : List Material) (num_sub_spaces : Nat) :
    List BCdict → Except BCError (List Constraint × List Value)
  | [] => .ok ([], [])
  | BC :: rest =>
    match processOne materials num_sub_spaces BC with
    | .error e => .error e
    | .ok (b1, e1) =>
      match applyBCs materials num_sub_spaces rest with
      | .error e => .error e
      | .ok (b2, e2) => .ok (b1 ++ b2, e1 ++ e2)

/-- The inputs of `apply_boundary_conditions` that matter to this model. -/
structure Simulation where
  materials : List Material
  boundary_conditions : List BCdict
  num_sub_spaces : Nat

/-- `apply_boundary_conditions(simulation)`. -/
def apply_boundary_conditions (sim : Simulation) :
    Except BCError (List Constraint × List Value) :=
  applyBCs sim.materials sim.num_sub_spaces sim.boundary_conditions

/-- `define_dirichlet_bcs_T`: the thermal Dirichlet builder; conditions whose
`type` is not `"dc"` are skipped without error. -/
def define_dirichlet_bcs_T :
    List BCdict → Except BCError (List Constraint × List Value)
  | [] => .ok ([], [])
  | bc :: rest =>
    match bc.type with
    | none => .error (.keyError "type")
    | some t =>
      if t = "dc" then
        match bc.value with
        | none => .error (.keyError "value")
        | some v =>
          match define_dirichlet_bcs_T rest with
          | .error e => .error e
          | .ok (bcs2, es2) =>
            .ok ((surfacesList bc.surfaces).map
                    (fun s => ⟨none, Value.expr v 2, s⟩) ++ bcs2,
                  Value.expr v 2 :: es2)
      else define_dirichlet_bcs_T rest

/-- `BoundaryConditionRecomb.eval`: pointwise value of the
implantation-recombination surface concentration.  The recombination term is
added exactly when `K_0 is not None`; the assembler always supplies `K_0`
and `E_K` together. -/
noncomputable def BoundaryConditionRecomb_eval (phi R_p : ℝ → ℝ)
    (K_0 E_K : Option ℝ) (D_0 E_D : ℝ) (T : ℝ → ℝ) (x : ℝ) : ℝ :=
  let D := D_0 * Real.exp (-E_D / k_B / T x)
  let val := phi x * R_p x / D
  match K_0, E_K with
  | some K0, some EK =>
    val + Real.sqrt (phi x / (K0 * Real.exp (-EK / k_B / T x)))
  | _, _ => val

/-- `BoundaryConditionSolubility.eval`: `c = S(T) * sqrt(pressure)`. -/
noncomputable def BoundaryConditionSolubility_eval (S_0 E_S : ℝ)
    (pressure : ℝ → ℝ) (T : ℝ → ℝ) (x : ℝ) : ℝ :=
  let S := S_0 * Real.exp (-E_S / k_B / T x)
  S * Real.sqrt (pressure x)

/-- `BoundaryConditionTheta.eval_cell`: looks up the material of the cell's
subdomain via the resolver and divides the wrapped value by its solubility
`S_0 * exp(-E_S/(k_B*T(x)))`. -/
noncomputable def BoundaryConditionTheta_eval_cell (bci : ℝ → ℝ)
    (materials : List Material) (vm : Nat → Nat) (T : ℝ → ℝ)
    (cellIndex : Nat) (x : ℝ) : Except BCError ℝ :=
  match find_material_from_id materials (vm cellIndex) with
  | .error e => .error e
  | .ok material =>
    match material.S_0, material.E_S with
    | some S_0, some E_S =>
      .ok (bci x / (S_0 * Real.exp (-E_S / k_B / T x)))
    | none, _ => .error (.keyError "S_0")
    | some _, none => .error (.keyError "E_S")

/-- The constraint list of an assembler result (empty on error). -/
def bcsOf (r : Except BCError (List Constraint × List Value)) :
    List Constraint :=
  match r with
  | .ok (cs, _) => cs
  | .error _ => []

/-- The registered-expression list of an assembler result (empty on error). -/
def exprsOf (r : Except BCError (List Constraint × List Value)) :
    List Value :=
  match r with
  | .ok (_, es) => es
  | .error _ => []

/-- Whether an assembler result succeeded (no exception raised). -/
def isOkRes (r : Except BCError (List Constraint × List Value)) : Bool :=
  match r with
  | .ok _ => true
  | .error _ => false

/-- Whether a condition dict is of a Dirichlet-class (essential) kind. -/
def bcIsDC (BC : BCdict) : Bool :=
  match BC.type with
  | some t => bc_types_dc.contains t
  | none => false

end FESTIM

namespace festim

/-- `sieverts_constant(T, S_0, E_S)` from `mass_flux.py`. -/
noncomputable def sieverts_constant (T S_0 E_S : ℝ) : ℝ :=
  S_0 * Real.exp (-E_S / FESTIM.k_B / T)

/-- `henry_constant(T, H_0, E_H)` from `mass_flux.py`. -/
noncomputable def henry_constant (T H_0 E_H : ℝ) : ℝ :=
  H_0 * Real.exp (-E_H / FESTIM.k_B / T)

/-- The `MassFlux` condition: field order follows `MassFlux.__init__`;
`field = 0` is set by the `FluxBC` base constructor.  The symbolic
`h_coeff`/`c_ext` expressions are modelled pointwise as reals. -/
structure MassFlux where
  h_coeff : ℝ
  c_ext : ℝ
  solubility_law : String
  pre_exp_liquid : ℝ
  activation_energy_liquid : ℝ
  S_0 : ℝ
  E_S : ℝ
  surfaces : FESTIM.Surfaces
  field : Nat := 0

/-- `MassFlux.create_form`, evaluated pointwise: resolves the liquid-side
interface concentration by the tagged solubility law and returns the flux
form `-h_coeff * (c_interface_liquid - c_ext)`; an unknown tag raises
`ValueError` with a fixed message. -/
noncomputable def MassFlux.create_form (m : MassFlux) (T solute : ℝ) :
    Except String ℝ :=
  let S := sieverts_constant T m.S_0 m.E_S
  if m.solubility_law = "sievert" then
    let solubility_liquid :=
      sieverts_constant T m.pre_exp_liquid m.activation_energy_liquid
    let c_interface_liquid := solute / S * solubility_liquid
    .ok (-m.h_coeff * (c_interface_liquid - m.c_ext))
  else if m.solubility_law = "henry" then
    let solubility_liquid :=
      henry_constant T m.pre_exp_liquid m.activation_energy_liquid
    let c_interface_liquid := (solute / S) ^ 2 * solubility_liquid
    .ok (-m.h_coeff * (c_interface_liquid - m.c_ext))
  else
    .error "Invalid solubility law. Choose between 'sievert' or 'henry'"

end festim

open FESTIM festim

/-- C4: the implantation-recombination boundary value evaluates pointwise to
`phi(x)*R_p(x)/D(T(x))` with `D(T) = D_0*exp(-E_D/(k_B*T))`, and the extra
term `sqrt(phi(x)/K(T(x)))` with `K(T) = K_0*exp(-E_K/(k_B*T))` is added
exactly when a finite recombination coefficient is supplied: with `K_0`
unset (`none`) the term is never added. -/
theorem C4_recomb_eval (phi R_p T : ℝ → ℝ) (K0 EK D_0 E_D x : ℝ) :
    BoundaryConditionRecomb_eval phi R_p none none D_0 E_D T x
      = phi x * R_p x / (D_0 * Real.exp (-E_D / k_B / T x)) ∧
    BoundaryConditionRecomb_eval phi R_p (some K0) (some EK) D_0 E_D T x
      = phi x * R_p x / (D_0 * Real.exp (-E_D / k_B / T x))
        + Real.sqrt (phi x / (K0 * Real.exp (-EK / k_B / T x))) :=
  ⟨rfl, rfl⟩

/-- C7: with a finite recombination coefficient, holding `phi > 0`, `R_p`,
the diffusion parameters, `E_K` and `T > 0` fixed, the evaluated surface
concentration strictly increases as `K_0` decreases toward zero. -/
theorem C7_recomb_antitone_in_K0 (phi R_p T : ℝ → ℝ)
    (K0 K0' EK D_0 E_D x : ℝ) (hphi : 0 < phi x) (hT : 0 < T x)
    (hK' : 0 < K0') (hlt : K0' < K0) :
    BoundaryConditionRecomb_eval phi R_p (some K0) (some EK) D_0 E_D T x
      < BoundaryConditionRecomb_eval phi R_p (some K0') (some EK) D_0 E_D T x := by
  have hE : 0 < Real.exp (-EK / k_B / T x) := Real.exp_pos _
  have hK : 0 < K0 := hK'.trans hlt
  unfold BoundaryConditionRecomb_eval
  apply add_lt_add_left
  apply Real.sqrt_lt_sqrt
  · exact div_nonneg hphi.le (mul_pos hK hE).le
  · exact div_lt_div_of_pos_left hphi (mul_pos hK' hE)
      (mul_lt_mul_of_pos_right hlt hE)

/-- C7 witness: the theorem instantiated at `phi = R_p = T = 1`,
`K_0 = 2 > K_0' = 1`, `E_K = 0`, `D_0 = 1`, `E_D = 0`, `x = 0`. -/
theorem C7_recomb_antitone_in_K0_witness :
    (0:ℝ) < 1 ∧
    BoundaryConditionRecomb_eval (fun _ => 1) (fun _ => 1) (some 2) (some 0)
        1 0 (fun _ => 1) 0
      < BoundaryConditionRecomb_eval (fun _ => 1) (fun _ => 1) (some 1)
        (some 0) 1 0 (fun _ => 1) 0 :=
  ⟨one_pos, C7_recomb_antitone_in_K0 (fun _ => 1) (fun _ => 1) (fun _ => 1)
    2 1 0 1 0 0 one_pos one_pos one_pos one_lt_two⟩

/-- C2 counterexample: for the unknown tag `"foo"`, `MassFlux.create_form`
does fail, but the error message is a fixed string that does not contain the
offending tag value, so the error does not name it as the claim states. -/
theorem C2_message_counterexample :
    MassFlux.create_form
        { h_coeff := 0, c_ext := 0, solubility_law := "foo",
          pre_exp_liquid := 0, activation_energy_liquid := 0, S_0 := 0,
          E_S := 0, surfaces := .single 1 } 1 0
      = .error "Invalid solubility law. Choose between 'sievert' or 'henry'"
    ∧ ¬ ("foo".toList <:+:
          "Invalid solubility law. Choose between 'sievert' or 'henry'".toList) :=
  ⟨rfl, by decide⟩

/-- C2 amended: for every mass-transfer condition whose `solubility_law` tag
is neither `"sievert"` nor `"henry"`, building the flux form fails with the
configuration error (Python `ValueError`) carrying the fixed message
`Invalid solubility law. Choose between 'sievert' or 'henry'`, which lists
the valid tags but does not include the offending tag value. -/
theorem C2_unknown_law_fails (m : MassFlux) (T solute : ℝ)
    (h1 : m.solubility_law ≠ "sievert") (h2 : m.solubility_law ≠ "henry") :
    MassFlux.create_form m T solute
      = .error "Invalid solubility law. Choose between 'sievert' or 'henry'" := by
  unfold MassFlux.create_form
  simp [h1, h2]

/-- C2 witness: the amended theorem applied to a concrete condition whose
tag is `"bogus"`. -/
theorem C2_unknown_law_fails_witness :
    ("bogus" : String) ≠ "sievert" ∧ ("bogus" : String) ≠ "henry" ∧
    MassFlux.create_form
        { h_coeff := 1, c_ext := 1, solubility_law := "bogus",
          pre_exp_liquid := 1, activation_energy_liquid := 1, S_0 := 1,
          E_S := 1, surfaces := .single 2 } 1 1
      = .error "Invalid solubility law. Choose between 'sievert' or 'henry'" :=
  ⟨by decide, by decide,
    C2_unknown_law_fails
      { h_coeff := 1, c_ext := 1, solubility_law := "bogus",
        pre_exp_liquid := 1, activation_energy_liquid := 1, S_0 := 1,
        E_S := 1, surfaces := .single 2 } 1 1 (by decide) (by decide)⟩

/-- C5: in the mass-transfer interface law, for `T > 0`, the tag `"sievert"`
yields the interface concentration `(c/S(T)) * S_liquid(T)` (power 1) and
the tag `"henry"` yields `(c/S(T))^2 * H_liquid(T)` (power 2), where
`S_liquid` and `H_liquid` are the same Arrhenius expression of the liquid
parameters — so the two closures differ exactly in the exponent applied to
`c/S(T)`. The returned flux form is `-h_coeff*(c_interface - c_ext)`. -/
theorem C5_solubility_law_exponents
    (T solute h_coeff c_ext pre act S_0 E_S : ℝ) (s : Surfaces)
    (hT : 0 < T) :
    MassFlux.create_form
        { h_coeff := h_coeff, c_ext := c_ext, solubility_law := "sievert",
          pre_exp_liquid := pre, activation_energy_liquid := act,
          S_0 := S_0, E_S := E_S, surfaces := s } T solute
      = .ok (-h_coeff * (solute / sieverts_constant T S_0 E_S
            * (pre * Real.exp (-act / k_B / T)) - c_ext)) ∧
    MassFlux.create_form
        { h_coeff := h_coeff, c_ext := c_ext, solubility_law := "henry",
          pre_exp_liquid := pre, activation_energy_liquid := act,
          S_0 := S_0, E_S := E_S, surfaces := s } T solute
      = .ok (-h_coeff * ((solute / sieverts_constant T S_0 E_S) ^ 2
            * (pre * Real.exp (-act / k_B / T)) - c_ext)) ∧
    henry_constant T pre act = sieverts_constant T pre act :=
  ⟨rfl, rfl, rfl⟩

/-- C5 witness: the theorem instantiated at `T = 1` with unit parameters. -/
theorem C5_solubility_law_exponents_witness :
    (0:ℝ) < 1 ∧
    (MassFlux.create_form
        { h_coeff := 1, c_ext := 1, solubility_law := "sievert",
          pre_exp_liquid := 1, activation_energy_liquid := 1, S_0 := 1,
          E_S := 1, surfaces := .single 1 } 1 1
      = .ok (-1 * (1 / sieverts_constant 1 1 1
            * (1 * Real.exp (-1 / k_B / 1)) - 1)) ∧
    MassFlux.create_form
        { h_coeff := 1, c_ext := 1, solubility_law := "henry",
          pre_exp_liquid := 1, activation_energy_liquid := 1, S_0 := 1,
          E_S := 1, surfaces := .single 1 } 1 1
      = .ok (-1 * ((1 / sieverts_constant 1 1 1) ^ 2
            * (1 * Real.exp (-1 / k_B / 1)) - 1)) ∧
    henry_constant 1 1 1 = sieverts_constant 1 1 1) :=
  ⟨one_pos, C5_solubility_law_exponents 1 1 1 1 1 1 1 1 (.single 1) one_pos⟩

theorem find_material_mem {materials : List Material} {id : Nat}
    {mat : Material} (h : find_material_from_id materials id = .ok mat) :
    mat ∈ materials := by
  unfold find_material_from_id at h
  rcases hf : materials.find? (fun m => m.id = id) with _ | m
  · rw [hf] at h; exact absurd h (by simp)
  · rw [hf] at h
    obtain rfl : m = mat := by injection h
    exact List.mem_of_find?_eq_some hf

/-- C6 counterexample: with the (degenerate) uniform solubility parameters
`S_0 = 0, E_S = 0`, `T(x) = 1 > 0` and `c(x) = 1`, the transform divides by
zero, and the claimed identity `transform(c)(x) * S(T(x)) = c(x)` fails
(`0 ≠ 1`): the claim needs `S_0 ≠ 0`. -/
theorem C6_round_trip_counterexample :
    BoundaryConditionTheta_eval_cell (fun _ => 1)
        [{ id := 1, S_0 := some 0, E_S := some 0 }] (fun _ => 1)
        (fun _ => 1) 0 0
      = .ok 0 ∧
    (0:ℝ) * (0 * Real.exp (-(0:ℝ) / k_B / 1)) ≠ (1:ℝ) ∧ (0:ℝ) < 1 := by
  refine ⟨?_, by simp, one_pos⟩
  simp [BoundaryConditionTheta_eval_cell, find_material_from_id, List.find?]

/-- C6 amended: if the solubility parameters `(S_0, E_S)` are uniform across
the declared materials and `S_0 ≠ 0`, then at every evaluation point whose
cell resolves to a material and where `T(x) > 0`, the transformed value
satisfies `transform(c)(x) * S(T(x)) = c(x)` with
`S(T) = S_0 * exp(-E_S/(k_B*T))`. -/
theorem C6_theta_round_trip (bci T : ℝ → ℝ) (materials : List Material)
    (vm : Nat → Nat) (cell : Nat) (x : ℝ) (s0 es : ℝ) (mat : Material)
    (huniform : ∀ m ∈ materials, m.S_0 = some s0 ∧ m.E_S = some es)
    (hfind : find_material_from_id materials (vm cell) = .ok mat)
    (hT : 0 < T x) (hs0 : s0 ≠ 0) :
    BoundaryConditionTheta_eval_cell bci materials vm T cell x
      = .ok (bci x / (s0 * Real.exp (-es / k_B / T x))) ∧
    bci x / (s0 * Real.exp (-es / k_B / T x))
      * (s0 * Real.exp (-es / k_B / T x)) = bci x := by
  obtain ⟨hS0, hES⟩ := huniform mat (find_material_mem hfind)
  constructor
  · simp [BoundaryConditionTheta_eval_cell, hfind, hS0, hES]
  · exact div_mul_cancel₀ _ (mul_ne_zero hs0 (Real.exp_ne_zero _))

/-- C6 witness: the amended theorem at the one-material domain
`S_0 = 2, E_S = 0`, `T = 1`, `c = 1`. -/
theorem C6_theta_round_trip_witness :
    (∀ m ∈ [({ id := 1, S_0 := some 2, E_S := some 0 } : Material)],
        m.S_0 = some 2 ∧ m.E_S = some 0) ∧
    (0:ℝ) < 1 ∧ (2:ℝ) ≠ 0 ∧
    (BoundaryConditionTheta_eval_cell (fun _ => 1)
        [{ id := 1, S_0 := some 2, E_S := some 0 }] (fun _ => 1)
        (fun _ => 1) 0 0
      = .ok (1 / (2 * Real.exp (-(0:ℝ) / k_B / 1))) ∧
    (1:ℝ) / (2 * Real.exp (-(0:ℝ) / k_B / 1))
      * (2 * Real.exp (-(0:ℝ) / k_B / 1)) = 1) :=
  ⟨by simp, one_pos, two_ne_zero,
    C6_theta_round_trip (fun _ => 1) (fun _ => 1)
      [{ id := 1, S_0 := some 2, E_S := some 0 }] (fun _ => 1) 0 0 2 0
      { id := 1, S_0 := some 2, E_S := some 0 }
      (by simp) (by simp [find_material_from_id, List.find?])
      one_pos two_ne_zero⟩

theorem any_solubility_eq (materials : List Material)
    (hwf : ∀ mat ∈ materials, mat.S_0.isSome = mat.E_S.isSome) :
    (materials.any fun mat => mat.S_0.isSome || mat.E_S.isSome)
      = materials.any fun mat => mat.S_0.isSome := by
  induction materials with
  | nil => rfl
  | cons m ms ih =>
    simp only [List.any_cons]
    rw [ih (fun mat hm => hwf mat (List.mem_cons_of_mem m hm)),
        ← hwf m (List.mem_cons_self m ms), Bool.or_self]

/-- C1: conservation-of-chemical-potential mode is enabled exactly when some
declared material defines solubility parameters (given the data-model
invariant that `S_0`/`E_S` are declared together); the detection in
`apply_fluxes` agrees with the one in `apply_boundary_conditions`; and a
Dirichlet-class boundary value is wrapped through the theta transform if and
only if that mode is enabled and the condition targets component 0 (the
default when no component key is given). -/
theorem C1_mode_detection_and_wrap (materials : List Material) (nss : Nat)
    (BC : BCdict) (v : String)
    (hwf : ∀ mat ∈ materials, mat.S_0.isSome = mat.E_S.isSome)
    (htype : BC.type = some "dc") (hval : BC.value = some v) :
    (conservation_chemic_pot materials = true ↔
      ∃ mat ∈ materials, mat.S_0.isSome = true ∧ mat.E_S.isSome = true) ∧
    conservation_chemic_pot_fluxes true materials
      = conservation_chemic_pot materials ∧
    (bcsOf (processOne materials nss BC)).map Constraint.value
      = (surfacesList BC.surfaces).map (fun _ =>
          if BC.component.getD 0 = 0 ∧ conservation_chemic_pot materials = true
          then Value.theta (Value.expr v 4) materials
          else Value.expr v 4) := by
  refine ⟨?_, ?_, ?_⟩
  · simp only [conservation_chemic_pot, List.any_eq_true]
    constructor
    · rintro ⟨mat, hm, hs⟩
      exact ⟨mat, hm, hs, (hwf mat hm) ▸ hs⟩
    · rintro ⟨mat, hm, hs, _⟩
      exact ⟨mat, hm, hs⟩
  · simp only [conservation_chemic_pot_fluxes, conservation_chemic_pot,
      Bool.true_and]
    exact any_solubility_eq materials hwf
  · unfold processOne buildValueBC
    rw [htype, hval]
    by_cases h : BC.component.getD 0 = 0
        ∧ conservation_chemic_pot materials = true
    · simp [h, bcsOf, buildValueBC, bc_types_dc, bc_types_neumann,
        bc_types_robin, Function.comp_def, List.map_const']
    · simp [h, bcsOf, buildValueBC, bc_types_dc, bc_types_neumann,
        bc_types_robin, Function.comp_def, List.map_const']

/-- C1 witness: one material defining both solubility parameters, a plain
`dc` condition with no component key and two surfaces. -/
theorem C1_mode_detection_and_wrap_witness :
    (∀ mat ∈ [({ id := 1, S_0 := some 3, E_S := some 1 } : Material)],
        mat.S_0.isSome = mat.E_S.isSome) ∧
    (({ type := some "dc", value := some "2*t",
        surfaces := .list [1, 2] } : BCdict).type = some "dc") ∧
    ((conservation_chemic_pot [{ id := 1, S_0 := some 3, E_S := some 1 }]
        = true ↔
      ∃ mat ∈ [({ id := 1, S_0 := some 3, E_S := some 1 } : Material)],
        mat.S_0.isSome = true ∧ mat.E_S.isSome = true) ∧
    conservation_chemic_pot_fluxes true
        [{ id := 1, S_0 := some 3, E_S := some 1 }]
      = conservation_chemic_pot [{ id := 1, S_0 := some 3, E_S := some 1 }] ∧
    (bcsOf (processOne [{ id := 1, S_0 := some 3, E_S := some 1 }] 0
        { type := some "dc", value := some "2*t",
          surfaces := .list [1, 2] })).map Constraint.value
      = (surfacesList (({ type := some "dc", value := some "2*t",
                          surfaces := .list [1, 2] } : BCdict).surfaces)).map
          (fun _ =>
            if (({ type := some "dc", value := some "2*t",
                   surfaces := .list [1, 2] } : BCdict).component.getD 0 = 0
                ∧ conservation_chemic_pot
                    [{ id := 1, S_0 := some 3, E_S := some 1 }] = true)
            then Value.theta (Value.expr "2*t" 4)
                   [{ id := 1, S_0 := some 3, E_S := some 1 }]
            else Value.expr "2*t" 4)) :=
  ⟨by simp, rfl,
    C1_mode_detection_and_wrap [{ id := 1, S_0 := some 3, E_S := some 1 }] 0
      { type := some "dc", value := some "2*t", surfaces := .list [1, 2] }
      "2*t" (by simp) rfl rfl⟩

/-- C8: when the chemical-potential transform applies (mode enabled,
component 0), the original untransformed value expression is still appended
to the expression registry in addition to the transformed one, while every
emitted constraint imposes only the transformed value. -/
theorem C8_original_expression_retained (materials : List Material)
    (nss : Nat) (BC : BCdict) (v : String)
    (htype : BC.type = some "dc") (hval : BC.value = some v)
    (hmode : conservation_chemic_pot materials = true)
    (hcomp : BC.component.getD 0 = 0) :
    processOne materials nss BC
      = .ok ((surfacesList BC.surfaces).map
              (fun s => ⟨(if nss = 0 then none else some 0),
                         Value.theta (Value.expr v 4) materials, s⟩),
             [Value.expr v 4, Value.theta (Value.expr v 4) materials]) := by
  unfold processOne buildValueBC
  rw [htype, hval]
  simp [hmode, hcomp, bc_types_dc, bc_types_neumann, bc_types_robin]

/-- C10: a `dc_imp` condition supplying exactly one of the two
recombination keys `K_0` and `E_K` (the other absent, in either
configuration) is silently treated as instantaneous recombination: the
assembler succeeds (no configuration error), the built boundary value
carries `K_0 = E_K = None`, and its pointwise evaluation has no
`sqrt(phi/K)` term. -/
theorem C10_partial_recomb_keys_silent (materials : List Material)
    (nss : Nat) (BC : BCdict) (fl dp : String) (D_0 E_D : ℝ)
    (phi R_p T : ℝ → ℝ) (x : ℝ)
    (htype : BC.type = some "dc_imp")
    (hfl : BC.implanted_flux = some fl)
    (hdp : BC.implantation_depth = some dp)
    (hD0 : BC.D_0 = some D_0) (hED : BC.E_D = some E_D)
    (hone : BC.K_0.isSome ≠ BC.E_K.isSome) :
    isOkRes (processOne materials nss BC) = true ∧
    Value.recomb (Value.expr fl 1) (Value.expr dp 1) none none D_0 E_D
      ∈ exprsOf (processOne materials nss BC) ∧
    BoundaryConditionRecomb_eval phi R_p none none D_0 E_D T x
      = phi x * R_p x / (D_0 * Real.exp (-E_D / k_B / T x)) := by
  have hand : (BC.K_0.isSome && BC.E_K.isSome) = false := by
    cases hK : BC.K_0.isSome <;> cases hEK : BC.E_K.isSome <;> simp_all
  refine ⟨?_, ?_, rfl⟩ <;>
  · unfold processOne buildValueBC
    rw [htype, hfl, hdp, hD0, hED]
    by_cases h : BC.component.getD 0 = 0
        ∧ conservation_chemic_pot materials = true
    · simp [h, hand, isOkRes, exprsOf, bc_types_dc, bc_types_neumann,
        bc_types_robin]
    · simp [h, hand, isOkRes, exprsOf, bc_types_dc, bc_types_neumann,
        bc_types_robin]

/-- C10 witness: the theorem applied to both asymmetric configurations — a
`dc_imp` condition carrying `K_0 = 2` and no `E_K` key, and one carrying
`E_K = 2` and no `K_0` key. -/
theorem C10_partial_recomb_keys_silent_witness :
    (({ type := some "dc_imp", implanted_flux := some "f",
        implantation_depth := some "r", D_0 := some 1, E_D := some 1,
        K_0 := some 2, surfaces := .single 1 } : BCdict).K_0.isSome
      ≠ ({ type := some "dc_imp", implanted_flux := some "f",
           implantation_depth := some "r", D_0 := some 1, E_D := some 1,
           K_0 := some 2, surfaces := .single 1 } : BCdict).E_K.isSome) ∧
    (({ type := some "dc_imp", implanted_flux := some "f",
        implantation_depth := some "r", D_0 := some 3, E_D := some 1,
        E_K := some 2, surfaces := .single 1 } : BCdict).K_0.isSome
      ≠ ({ type := some "dc_imp", implanted_flux := some "f",
           implantation_depth := some "r", D_0 := some 3, E_D := some 1,
           E_K := some 2, surfaces := .single 1 } : BCdict).E_K.isSome) ∧
    (isOkRes (processOne [] 0
        { type := some "dc_imp", implanted_flux := some "f",
          implantation_depth := some "r", D_0 := some 1, E_D := some 1,
          K_0 := some 2, surfaces := .single 1 }) = true ∧
    Value.recomb (Value.expr "f" 1) (Value.expr "r" 1) none none 1 1
      ∈ exprsOf (processOne [] 0
          { type := some "dc_imp", implanted_flux := some "f",
            implantation_depth := some "r", D_0 := some 1, E_D := some 1,
            K_0 := some 2, surfaces := .single 1 }) ∧
    BoundaryConditionRecomb_eval (fun _ => 1) (fun _ => 1) none none 1 1
        (fun _ => 1) 0
      = (fun _ => (1:ℝ)) 0 * (fun _ => (1:ℝ)) 0
          / (1 * Real.exp (-1 / k_B / (fun _ => (1:ℝ)) 0))) ∧
    (isOkRes (processOne [] 0
        { type := some "dc_imp", implanted_flux := some "f",
          implantation_depth := some "r", D_0 := some 3, E_D := some 1,
          E_K := some 2, surfaces := .single 1 }) = true ∧
    Value.recomb (Value.expr "f" 1) (Value.expr "r" 1) none none 3 1
      ∈ exprsOf (processOne [] 0
          { type := some "dc_imp", implanted_flux := some "f",
            implantation_depth := some "r", D_0 := some 3, E_D := some 1,
            E_K := some 2, surfaces := .single 1 }) ∧
    BoundaryConditionRecomb_eval (fun _ => 1) (fun _ => 1) none none 3 1
        (fun _ => 1) 0
      = (fun _ => (1:ℝ)) 0 * (fun _ => (1:ℝ)) 0
          / (3 * Real.exp (-1 / k_B / (fun _ => (1:ℝ)) 0))) :=
  ⟨by decide, by decide,
    C10_partial_recomb_keys_silent [] 0
      { type := some "dc_imp", implanted_flux := some "f",
        implantation_depth := some "r", D_0 := some 1, E_D := some 1,
        K_0 := some 2, surfaces := .single 1 } "f" "r" 1 1
      (fun _ => 1) (fun _ => 1) (fun _ => 1) 0
      rfl rfl rfl rfl rfl (by decide),
    C10_partial_recomb_keys_silent [] 0
      { type := some "dc_imp", implanted_flux := some "f",
        implantation_depth := some "r", D_0 := some 3, E_D := some 1,
        E_K := some 2, surfaces := .single 1 } "f" "r" 3 1
      (fun _ => 1) (fun _ => 1) (fun _ => 1) 0
      rfl rfl rfl rfl rfl (by decide)⟩

/-- C3 counterexample: the thermal Dirichlet builder
(`define_dirichlet_bcs_T`) silently skips a declared condition of
unrecognized kind instead of raising `UnknownConditionType`: with the single
declared condition of kind `"bogus"` it returns successfully with no
constraints and no expressions. -/
theorem C3_thermal_silent_skip_counterexample :
    define_dirichlet_bcs_T [{ type := some "bogus", surfaces := .single 1 }]
      = .ok ([], []) := rfl

/-- C3 amended: in the main assembler (`apply_boundary_conditions`), a
declared condition whose kind is in none of the recognized dc/Neumann/Robin
categories makes the whole run fail with `UnknownConditionType`
(`NameError`) naming the offending kind value — so the caller receives no
essential constraint at all (conditions before the offending one must
themselves be well-formed); the thermal builder `define_dirichlet_bcs_T`,
however, silently skips conditions whose kind is not `"dc"`. -/
theorem C3_unknown_kind_raises (materials : List Material) (nss : Nat)
    (pre post : List BCdict) (BC : BCdict) (t : String)
    (htype : BC.type = some t)
    (hdc : bc_types_dc.contains t = false)
    (hneu : bc_types_neumann.contains t = false)
    (hrob : bc_types_robin.contains t = false)
    (hpre : ∀ bc ∈ pre, ∃ r, processOne materials nss bc = .ok r) :
    applyBCs materials nss (pre ++ BC :: post)
      = .error (.nameError ("Unknown boundary condition type : " ++ t)) := by
  induction pre with
  | nil =>
    have ht1 : t ≠ "dc" := by
      intro h; rw [h] at hdc; simp [bc_types_dc] at hdc
    have ht2 : t ≠ "solubility" := by
      intro h; rw [h] at hdc; simp [bc_types_dc] at hdc
    have ht3 : t ≠ "dc_imp" := by
      intro h; rw [h] at hdc; simp [bc_types_dc] at hdc
    have ht4 : t ≠ "flux" := by
      intro h; rw [h] at hneu; simp [bc_types_neumann] at hneu
    have ht5 : t ≠ "recomb" := by
      intro h; rw [h] at hrob; simp [bc_types_robin] at hrob
    have ht6 : t ≠ "convective_flux" := by
      intro h; rw [h] at hrob; simp [bc_types_robin] at hrob
    have ht7 : t ≠ "mass_flux" := by
      intro h; rw [h] at hrob; simp [bc_types_robin] at hrob
    have hbad : processOne materials nss BC
        = .error (.nameError ("Unknown boundary condition type : " ++ t)) := by
      unfold processOne buildValueBC
      rw [htype]
      simp [ht1, ht2, ht3, ht4, ht5, ht6, ht7, bc_types_dc,
        bc_types_neumann, bc_types_robin]
    simp only [List.nil_append]
    unfold applyBCs
    rw [hbad]
  | cons b rest ih =>
    obtain ⟨⟨b1, e1⟩, hb⟩ := hpre b (List.mem_cons_self b rest)
    simp only [List.cons_append]
    unfold applyBCs
    rw [hb, ih (fun bc hm => hpre bc (List.mem_cons_of_mem b hm))]

/-- C3 witness: a single condition of kind `"bogus"` with no well-formed
conditions before it. -/
theorem C3_unknown_kind_raises_witness :
    (({ type := some "bogus", surfaces := .single 1 } : BCdict).type
      = some "bogus") ∧
    bc_types_dc.contains "bogus" = false ∧
    applyBCs [] 0
        ([] ++ ({ type := some "bogus", surfaces := .single 1 } : BCdict) :: [])
      = .error (.nameError ("Unknown boundary condition type : " ++ "bogus")) :=
  ⟨rfl, rfl,
    C3_unknown_kind_raises [] 0 [] []
      { type := some "bogus", surfaces := .single 1 } "bogus"
      rfl rfl rfl rfl (by simp)⟩

theorem processOne_ok_length {materials : List Material} {nss : Nat}
    {BC : BCdict} {cs : List Constraint} {es : List Value}
    (h : processOne materials nss BC = .ok (cs, es)) :
    cs.length
      = if bcIsDC BC then (surfacesList BC.surfaces).length else 0 := by
  unfold processOne at h
  unfold bcIsDC
  rcases htype : BC.type with _ | t <;> rw [htype] at h <;>
    dsimp only at h ⊢
  · simp at h
  · rcases hb : buildValueBC BC t with e | ⟨v?, e1⟩ <;> rw [hb] at h <;>
      dsimp only at h
    · simp at h
    · split at h
      · simp at h
      · split at h
        · rcases v? with _ | vb
          · simp at h
          · simp only [Except.ok.injEq, Prod.mk.injEq] at h
            obtain ⟨hcs, -⟩ := h
            subst hcs
            simp_all
        · simp only [Except.ok.injEq, Prod.mk.injEq] at h
          obtain ⟨hcs, -⟩ := h
          subst hcs
          simp_all

theorem applyBCs_ok_length {materials : List Material} {nss : Nat} :
    ∀ {bcs : List BCdict} {cs : List Constraint} {es : List Value},
    applyBCs materials nss bcs = .ok (cs, es) →
    cs.length = (bcs.map fun bc =>
        if bcIsDC bc then (surfacesList bc.surfaces).length else 0).sum := by
  intro bcs
  induction bcs with
  | nil =>
    intro cs es h
    simp only [applyBCs, Except.ok.injEq, Prod.mk.injEq] at h
    obtain ⟨hcs, -⟩ := h
    subst hcs
    simp
  | cons b rest ih =>
    intro cs es h
    unfold applyBCs at h
    rcases h1 : processOne materials nss b with e | ⟨b1, e1⟩ <;>
      rw [h1] at h <;> dsimp only at h
    · simp at h
    · rcases h2 : applyBCs materials nss rest with e | ⟨b2, e2⟩ <;>
        rw [h2] at h <;> dsimp only at h
      · simp at h
      · simp only [Except.ok.injEq, Prod.mk.injEq] at h
        obtain ⟨hcs, -⟩ := h
        subst hcs
        simp only [List.length_append, List.map_cons, List.sum_cons,
          processOne_ok_length h1, ih h2]

/-- C9: an essential-class condition whose `surfaces` field is a bare id is
processed identically to the same condition with the singleton list of that
id (the lone id is promoted to a singleton); and on a successful run the
number of emitted essential constraints equals the total number of
(condition, surface) pairs over the Dirichlet-class conditions. -/
theorem C9_surfaces_normalization_and_count (materials : List Material)
    (nss : Nat) (BC : BCdict) (s : Nat) (bcs : List BCdict)
    (cs : List Constraint) (es : List Value)
    (hs : BC.surfaces = .single s)
    (hrun : applyBCs materials nss bcs = .ok (cs, es)) :
    processOne materials nss BC
      = processOne materials nss { BC with surfaces := Surfaces.list [s] } ∧
    cs.length = (bcs.map fun bc =>
        if bcIsDC bc then (surfacesList bc.surfaces).length else 0).sum := by
  constructor
  · obtain ⟨ty, v, p, s0, es0, fl, dp, d0, ed, k0, ek, comp, surfs⟩ := BC
    simp only at hs
    subst hs
    rfl
  · exact applyBCs_ok_length hrun

/-- C9 witness: a `dc` condition with a bare surface id `2`, and a
one-condition run emitting exactly one constraint. -/
theorem C9_surfaces_normalization_and_count_witness :
    (({ type := some "dc", value := some "3",
        surfaces := .single 2 } : BCdict).surfaces = .single 2) ∧
    applyBCs [] 0
        [{ type := some "dc", value := some "3", surfaces := .single 2 }]
      = .ok ([{ funspace := none, value := Value.expr "3" 4, surface := 2 }],
             [Value.expr "3" 4]) ∧
    (processOne [] 0
        { type := some "dc", value := some "3", surfaces := .single 2 }
      = processOne [] 0
          { type := some "dc", value := some "3",
            surfaces := Surfaces.list [2] } ∧
    ([({ funspace := none, value := Value.expr "3" 4,
         surface := 2 } : Constraint)]).length
      = ([({ type := some "dc", value := some "3",
             surfaces := .single 2 } : BCdict)].map fun bc =>
          if bcIsDC bc then (surfacesList bc.surfaces).length else 0).sum) :=
  ⟨rfl, rfl,
    C9_surfaces_normalization_and_count [] 0
      { type := some "dc", value := some "3", surfaces := .single 2 } 2
      [{ type := some "dc", value := some "3", surfaces := .single 2 }]
      [{ funspace := none, value := Value.expr "3" 4, surface := 2 }]
      [Value.expr "3" 4] rfl rfl⟩

/-- C8 witness: the theorem applied to one solubility-defining material and
a `dc` condition on surface 3 with no component key. -/
theorem C8_original_expression_retained_witness :
    conservation_chemic_pot [{ id := 1, S_0 := some 1 }] = true ∧
    (({ type := some "dc", value := some "t",
        surfaces := .single 3 } : BCdict).component.getD 0 = 0) ∧
    processOne [{ id := 1, S_0 := some 1 }] 0
        { type := some "dc", value := some "t", surfaces := .single 3 }
      = .ok ((surfacesList (({ type := some "dc", value := some "t",
                               surfaces := .single 3 } : BCdict).surfaces)).map
              (fun s => ⟨(if (0:Nat) = 0 then none else some 0),
                         Value.theta (Value.expr "t" 4)
                           [{ id := 1, S_0 := some 1 }], s⟩),
             [Value.expr "t" 4,
              Value.theta (Value.expr "t" 4) [{ id := 1, S_0 := some 1 }]]) :=
  ⟨rfl, rfl,
    C8_original_expression_retained [{ id := 1, S_0 := some 1 }] 0
      { type := some "dc", value := some "t", surfaces := .single 3 } "t"
      rfl rfl rfl rfl⟩
